import Mathlib

/-!
# Steganography suite — browser client (`web_app/static/css/js/script.js`)

A shallow embedding of the client script.  The script is event driven: every
handler reads the form controls of the page, may raise `alert`s, issues at
most one `fetch`, and on the answer rewrites a few result elements.  A handler
is embedded as a function on a `World` (the page plus the trace of observable
effects); the answer of the network is an explicit argument (`NetOutcome`).

JavaScript values received from `response.json()` are embedded as `Value`;
member reads and conversions that can throw a `TypeError` return an `Except`.
The built-ins whose results depend on IEEE-754 arithmetic or on the engine
(number formatting, string-to-number conversion, double multiplication, the
text of a `TypeError`) are collected in `Host` and passed explicitly.

Line numbers refer to `script.js`.
-/

namespace StegSuite

/-! ## JavaScript values -/

/-- A JavaScript number: every finite double is a rational; the remaining
doubles are the two infinities and NaN. -/
inductive JSNumber where
  | fin (q : ℚ)
  | posInf
  | negInf
  | nan
  deriving DecidableEq

namespace JSNumber

/-- The relational operator `a < b` on numbers (false as soon as one side is NaN). -/
def lt : JSNumber → JSNumber → Bool
  | nan, _ => false
  | _, nan => false
  | fin a, fin b => decide (a < b)
  | fin _, posInf => true
  | fin _, negInf => false
  | posInf, _ => false
  | negInf, negInf => false
  | negInf, _ => true

/-- The relational operator `a > b`, which JavaScript evaluates as `b < a`. -/
def gt (a b : JSNumber) : Bool := lt b a

/-- The relational operator `a <= b`: false when a side is NaN, else `!(b < a)`. -/
def le : JSNumber → JSNumber → Bool
  | nan, _ => false
  | _, nan => false
  | a, b => !(lt b a)

end JSNumber

/-- The value of the numeric literal `0.7`: the double nearest to 7/10. -/
def lit_0_7 : JSNumber := .fin (3152519739159347 / 4503599627370496)

/-- The value of the numeric literal `0.4`: the double nearest to 4/10. -/
def lit_0_4 : JSNumber := .fin (3602879701896397 / 9007199254740992)

/-- The value of the numeric literal `100`. -/
def lit_100 : JSNumber := .fin 100

/-- A value as produced by `JSON.parse`, plus `undefined` (the result of
reading an absent member). -/
inductive Value where
  | undefined
  | null
  | bool (b : Bool)
  | num (n : JSNumber)
  | str (s : String)
  | arr (items : List Value)
  | obj (members : List (String × Value))

/-- An exception object; the script only ever reads its `message`. -/
structure JSError where
  message : String
  deriving DecidableEq

/-- Engine built-ins that are taken as given. -/
structure Host where
  /-- Is `Number.prototype.toString` (radix 10). -/
  numToString : JSNumber → String
  /-- Is the conversion of a string to a number (`StringToNumber`). -/
  strToNumber : String → JSNumber
  /-- Is the double multiplication `a * b`. -/
  mul : JSNumber → JSNumber → JSNumber
  /-- Is `Number.prototype.toFixed(digits)`. -/
  toFixed : JSNumber → Nat → String
  /-- Is the message of the `TypeError` raised by reading member `name` of
  `undefined` or `null`. -/
  typeErrorMessage : Value → String → String
  /-- Is the message of the `TypeError` raised when an object cannot be
  converted to a primitive value. -/
  convertErrorMessage : String

/-- Truthiness (`ToBoolean`). -/
def Value.truthy : Value → Bool
  | .undefined => false
  | .null => false
  | .bool b => b
  | .num (.fin q) => decide (q ≠ 0)
  | .num .nan => false
  | .num _ => true
  | .str s => decide (s ≠ "")
  | .arr _ => true
  | .obj _ => true

mutual
/-- String conversion (`ToString`), as applied by template literals and by
`+` with a string operand.  Arrays are joined with commas.  A parsed JSON
object inherits `Object.prototype.toString`, which yields `[object Object]`,
unless it has an own member named `toString`: that member is never callable,
and the conversion throws a `TypeError`. -/
def toStr (h : Host) : Value → Except JSError String
  | .undefined => .ok "undefined"
  | .null => .ok "null"
  | .bool true => .ok "true"
  | .bool false => .ok "false"
  | .num n => .ok (h.numToString n)
  | .str s => .ok s
  | .arr items => joinItems h items
  | .obj ms =>
    match ms.lookup "toString" with
    | some _ => .error ⟨h.convertErrorMessage⟩
    | none => .ok "[object Object]"
/-- The body of `Array.prototype.join(",")`. -/
def joinItems (h : Host) : List Value → Except JSError String
  | [] => .ok ""
  | [v] => itemStr h v
  | v :: w :: rest =>
    match itemStr h v with
    | .error e => .error e
    | .ok s =>
      match joinItems h (w :: rest) with
      | .error e => .error e
      | .ok t => .ok (s ++ "," ++ t)
/-- One element of a joined array: `undefined` and `null` contribute the
empty string, every other element its string conversion. -/
def itemStr (h : Host) : Value → Except JSError String
  | .undefined => .ok ""
  | .null => .ok ""
  | .bool true => .ok "true"
  | .bool false => .ok "false"
  | .num n => .ok (h.numToString n)
  | .str s => .ok s
  | .arr items => joinItems h items
  | .obj ms =>
    match ms.lookup "toString" with
    | some _ => .error ⟨h.convertErrorMessage⟩
    | none => .ok "[object Object]"
end

/-- Number conversion (`ToNumber`); arrays and objects go through their
string form. -/
def toNumber (h : Host) : Value → Except JSError JSNumber
  | .undefined => .ok .nan
  | .null => .ok (.fin 0)
  | .bool true => .ok (.fin 1)
  | .bool false => .ok (.fin 0)
  | .num n => .ok n
  | .str s => .ok (h.strToNumber s)
  | .arr items =>
    match toStr h (.arr items) with
    | .error e => .error e
    | .ok s => .ok (h.strToNumber s)
  | .obj ms =>
    match toStr h (.obj ms) with
    | .error e => .error e
    | .ok s => .ok (h.strToNumber s)

/-- Member read `base.name` for the member names the script uses (`success`,
`error`, `image`, `message`, `capacity`, ...; none of them is a built-in
member of a primitive or of an array): `undefined` and `null` throw a
`TypeError`, an object yields its own member or `undefined`, every other
value yields `undefined`. -/
def getProp (h : Host) (base : Value) (name : String) : Except JSError Value :=
  match base with
  | .undefined => .error ⟨h.typeErrorMessage .undefined name⟩
  | .null => .error ⟨h.typeErrorMessage .null name⟩
  | .obj ms => .ok ((ms.lookup name).getD .undefined)
  | _ => .ok .undefined

/-- Conversion applied by the setter of a nullable DOM string attribute such
as `textContent`: `null` and `undefined` become the empty string. -/
def domText (h : Host) : Value → Except JSError String
  | .undefined => .ok ""
  | .null => .ok ""
  | v => toStr h v

/-! ## The page and the observable effects -/

/-- A file chosen in a file input; `type` is its MIME type. -/
structure File where
  name : String
  type : String
  deriving DecidableEq

/-- A value stored in a `FormData` entry: a file, or a string (`append`
converts every non-file argument to a string). -/
inductive FormValue where
  | file (f : File)
  | text (s : String)
  deriving DecidableEq

/-- The body of a request: a `FormData` (entries in insertion order), or the
text `JSON.stringify` produces for an object literal with the given members. -/
inductive Body where
  | formData (entries : List (String × FormValue))
  | json (members : List (String × Value))

/-- The arguments of one call of `fetch`. -/
structure Request where
  url : String
  method : String
  headers : List (String × String)
  body : Body

/-- What the user or the network can observe of a handler. -/
inductive Effect where
  | alert (msg : String)
  | fetch (req : Request)
  | consoleError (label : String) (err : JSError)

/-- The elements of the document the script reads or writes.  All of them are
taken to exist (`getElementById` never returns `null`). -/
structure Page where
  /-- Is `files[0]` of the input `#encodeImage`. -/
  encodeImageFile : Option File
  /-- Is `files[0]` of the input `#decodeImage`. -/
  decodeImageFile : Option File
  /-- Is `files[0]` of the input `#analyzeImage`. -/
  analyzeImageFile : Option File
  secretMessage : String
  encodePassword : String
  lsbBits : String
  useCompression : Bool
  decodePassword : String
  decodeLsbBits : String
  /-- Is `document.body.classList.contains('loading')`. -/
  bodyLoading : Bool
  encodePreviewHTML : String
  decodePreviewHTML : String
  analyzePreviewHTML : String
  capacityInfoText : String
  stegoPreviewHTML : String
  securityScoreText : String
  securityScoreClass : String
  encodeResultDisplay : String
  decodedMessageText : String
  decodeResultDisplay : String
  analysisReportText : String
  analyzeResultDisplay : String

/-- The page together with the effects observed so far (oldest first). -/
structure World where
  page : Page
  log : List Effect

/-- How the awaited `fetch(...)` followed by `response.json()` ends. -/
inductive NetOutcome where
  /-- The promise of `fetch` rejects (network failure). -/
  | fetchRejected (err : JSError)
  /-- The promise of `response.json()` rejects (body is not JSON). -/
  | jsonRejected (err : JSError)
  /-- The body parses to `data`. -/
  | json (data : Value)

/-- Code running inside a `try` block: it may throw, and what it did to the
world before throwing stays done. -/
def Script (α : Type) : Type := World → Except JSError α × World

namespace Script

/-- Normal completion with a value. -/
def ret {α : Type} (a : α) : Script α := fun w => (.ok a, w)

/-- Sequencing: a throw of the first part skips the second. -/
def andThen {α β : Type} (m : Script α) (f : α → Script β) : Script β := fun w =>
  match m w with
  | (.ok a, w1) => f a w1
  | (.error e, w1) => (.error e, w1)

/-- An expression that may throw but has no effect. -/
def eval {α : Type} (x : Except JSError α) : Script α := fun w => (x, w)

/-- A statement that updates the page. -/
def update (f : Page → Page) : Script Unit := fun w => (.ok (), { w with page := f w.page })

/-- A statement with an observable effect. -/
def emit (e : Effect) : Script Unit := fun w => (.ok (), { w with log := w.log ++ [e] })

end Script

instance : Monad Script where
  pure := Script.ret
  bind := Script.andThen

/-- The call `alert(msg)`. -/
def alert (msg : String) (w : World) : World := { w with log := w.log ++ [.alert msg] }

/-- The two awaits `const response = await fetch(...); const data = await
response.json();` once the request is out: either promise may reject, which
throws at the `await`. -/
def awaitJson (net : NetOutcome) : Script Value :=
  match net with
  | .fetchRejected e => Script.eval (.error e)
  | .jsonRejected e => Script.eval (.error e)
  | .json data => Script.ret data

/-- The statements `document.body.classList.add('loading'); fetch(url,
{ method: 'POST', body: formData })`, up to the suspension at the first
`await`: the world while the request is in flight. -/
def sendForm (url : String) (formData : List (String × FormValue)) (w : World) : World :=
  { page := { w.page with bodyLoading := true },
    log := w.log ++ [.fetch { url := url, method := "POST", headers := [], body := .formData formData }] }

/-- The `finally` clause `document.body.classList.remove('loading')`. -/
def removeLoading (w : World) : World := { w with page := { w.page with bodyLoading := false } }

/-- A `catch (error) { alert(label + error.message) }` clause applied to the
outcome of the `try` block. -/
def catchAlert (label : String) (r : Except JSError Unit × World) : World :=
  match r with
  | (.ok _, w) => w
  | (.error e, w) => alert (label ++ e.message) w

/-! ## Capacity query (lines 60-79) -/

/-- The `try` block of `calculateCapacity`, from the first `await` on. -/
def capacityResume (h : Host) (net : NetOutcome) : Script Unit := do
  let data ← awaitJson net
  let success ← Script.eval (getProp h data "success")
  if success.truthy then do
    let c1 ← Script.eval (getProp h data "capacity")
    let bytes ← Script.eval (getProp h c1 "capacity_bytes")
    let bytesText ← Script.eval (toStr h bytes)
    let c2 ← Script.eval (getProp h data "capacity")
    let kb ← Script.eval (getProp h c2 "capacity_kb")
    let kbText ← Script.eval (toStr h kb)
    let text := "Capacity: " ++ bytesText ++ " bytes (" ++ kbText ++ " KB)"
    Script.update (fun p => { p with capacityInfoText := text })
  else
    Script.ret ()

/-- The request `calculateCapacity(imageData)` sends. -/
def capacityRequest (imageData : String) (lsbBits : String) : Request :=
  { url := "/api/capacity", method := "POST",
    headers := [("Content-Type", "application/json")],
    body := .json [("image", .str imageData), ("lsb_bits", .str lsbBits)] }

/-- The handler `calculateCapacity(imageData)`. -/
def calculateCapacity (h : Host) (imageData : String) (net : NetOutcome) (w : World) : World :=
  let lsbBits := w.page.lsbBits
  let w1 : World := { w with log := w.log ++ [.fetch (capacityRequest imageData lsbBits)] }
  match capacityResume h net w1 with
  | (.ok _, w2) => w2
  | (.error e, w2) => { w2 with log := w2.log ++ [.consoleError "Capacity calculation failed:" e] }

/-! ## Encode (lines 81-139) -/

/-- The class suffix chosen by the nested conditional of lines 126-127; each
comparison reads `data.security_score` afresh. -/
def scoreClass (h : Host) (data : Value) : Except JSError String := do
  let s1 ← getProp h data "security_score"
  let n1 ← toNumber h s1
  if n1.gt lit_0_7 then
    pure "high"
  else do
    let s2 ← getProp h data "security_score"
    let n2 ← toNumber h s2
    if n2.gt lit_0_4 then pure "medium" else pure "low"

/-- The text `(x * 100).toFixed(1)`. -/
def percentText (h : Host) (x : Value) : Except JSError String := do
  let n ← toNumber h x
  pure (h.toFixed (h.mul n lit_100) 1)

/-- The `try` block of `encodeImage`, from the first `await` on. -/
def encodeResume (h : Host) (net : NetOutcome) : Script Unit := do
  let data ← awaitJson net
  let success ← Script.eval (getProp h data "success")
  if success.truthy then do
    let image ← Script.eval (getProp h data "image")
    let imageText ← Script.eval (toStr h image)
    let html := "<img src=\"" ++ imageText ++ "\" alt=\"Stego Image\">"
    Script.update (fun p => { p with stegoPreviewHTML := html })
    let score ← Script.eval (getProp h data "security_score")
    let percent ← Script.eval (percentText h score)
    let text := "Security Score: " ++ percent ++ "%"
    Script.update (fun p => { p with securityScoreText := text })
    let cls ← Script.eval (scoreClass h data)
    Script.update (fun p => { p with securityScoreClass := "security-score " ++ cls })
    Script.update (fun p => { p with encodeResultDisplay := "block" })
  else do
    let err ← Script.eval (getProp h data "error")
    let errText ← Script.eval (toStr h err)
    Script.emit (.alert ("Encoding failed: " ++ errText))

/-- The `FormData` built by lines 102-107. -/
def encodeFormData (file : File) (p : Page) : List (String × FormValue) :=
  [("image", .file file), ("message", .text p.secretMessage),
   ("password", .text p.encodePassword), ("lsb_bits", .text p.lsbBits),
   ("compression", .text (if p.useCompression then "true" else "false"))]

/-- The handler `encodeImage()`. -/
def encodeImage (h : Host) (net : NetOutcome) (w : World) : World :=
  match w.page.encodeImageFile with
  | none => alert "Please select an image first" w
  | some file =>
    if w.page.secretMessage = "" then alert "Please enter a secret message" w
    else if w.page.encodePassword = "" then alert "Please enter a password" w
    else
      let w1 := sendForm "/api/encode" (encodeFormData file w.page) w
      removeLoading (catchAlert "Encoding error: " (encodeResume h net w1))

/-! ## Decode (lines 141-184) -/

/-- The `try` block of `decodeImage`, from the first `await` on. -/
def decodeResume (h : Host) (net : NetOutcome) : Script Unit := do
  let data ← awaitJson net
  let success ← Script.eval (getProp h data "success")
  if success.truthy then do
    let message ← Script.eval (getProp h data "message")
    let messageText ← Script.eval (domText h message)
    Script.update (fun p => { p with decodedMessageText := messageText })
    Script.update (fun p => { p with decodeResultDisplay := "block" })
  else do
    let err ← Script.eval (getProp h data "error")
    let errText ← Script.eval (toStr h err)
    Script.emit (.alert ("Decoding failed: " ++ errText))

/-- The `FormData` built by lines 156-159. -/
def decodeFormData (file : File) (p : Page) : List (String × FormValue) :=
  [("image", .file file), ("password", .text p.decodePassword),
   ("lsb_bits", .text p.decodeLsbBits)]

/-- The handler `decodeImage()`. -/
def decodeImage (h : Host) (net : NetOutcome) (w : World) : World :=
  match w.page.decodeImageFile with
  | none => alert "Please select an image first" w
  | some file =>
    if w.page.decodePassword = "" then alert "Please enter the password" w
    else
      let w1 := sendForm "/api/decode" (decodeFormData file w.page) w
      removeLoading (catchAlert "Decoding error: " (decodeResume h net w1))

/-! ## Analyze (lines 186-227) -/

/-- The `try` block of `analyzeImage`, from the first `await` on. -/
def analyzeResume (h : Host) (net : NetOutcome) : Script Unit := do
  let data ← awaitJson net
  let success ← Script.eval (getProp h data "success")
  if success.truthy then do
    let score ← Script.eval (getProp h data "security_score")
    let percent ← Script.eval (percentText h score)
    let level ← Script.eval (getProp h data "security_level")
    let levelText ← Script.eval (toStr h level)
    let risk ← Script.eval (getProp h data "detection_risk")
    let riskText ← Script.eval (toStr h risk)
    let recommendation ← Script.eval (getProp h data "recommendation")
    let recText ← Script.eval (toStr h recommendation)
    let text := "Security Score: " ++ percent ++ "%\nSecurity Level: " ++ levelText
      ++ "\nDetection Risk: " ++ riskText ++ "\n\nRecommendation:\n" ++ recText
    Script.update (fun p => { p with analysisReportText := text })
    Script.update (fun p => { p with analyzeResultDisplay := "block" })
  else do
    let err ← Script.eval (getProp h data "error")
    let errText ← Script.eval (toStr h err)
    Script.emit (.alert ("Analysis failed: " ++ errText))

/-- The handler `analyzeImage()`. -/
def analyzeImage (h : Host) (net : NetOutcome) (w : World) : World :=
  match w.page.analyzeImageFile with
  | none => alert "Please select an image first" w
  | some file =>
    let w1 := sendForm "/api/analyze" [("image", .file file)] w
    removeLoading (catchAlert "Analysis error: " (analyzeResume h net w1))

/-! ## File selection (lines 14-58 and 249-254) -/

/-- The test `file.type.startsWith('image/')`. -/
def File.isImage (f : File) : Bool := "image/".toList.isPrefixOf f.type.toList

/-- A file input as `handleFileSelect` sees it: its `id` and `files[0]`. -/
structure FileInput where
  id : String
  file0 : Option File

/-- The preview elements registered by the `DOMContentLoaded` handler. -/
inductive Preview where
  | encodePreview
  | decodePreview
  | analyzePreview
  deriving DecidableEq

/-- The assignment `preview.innerHTML = html`. -/
def Preview.setHTML (v : Preview) (html : String) (p : Page) : Page :=
  match v with
  | .encodePreview => { p with encodePreviewHTML := html }
  | .decodePreview => { p with decodePreviewHTML := html }
  | .analyzePreview => { p with analyzePreviewHTML := html }

/-- The read `preview.innerHTML`. -/
def Preview.getHTML (v : Preview) (p : Page) : String :=
  match v with
  | .encodePreview => p.encodePreviewHTML
  | .decodePreview => p.decodePreviewHTML
  | .analyzePreview => p.analyzePreviewHTML

/-- How `reader.readAsDataURL(file)` ends: the `load` event fires with the
data URL in `e.target.result`, or the read fails and `load` never fires. -/
inductive ReadOutcome where
  | loaded (result : String)
  | failed

/-- The `reader.onload` callback of lines 48-55. -/
def onload (h : Host) (input : FileInput) (preview : Preview) (result : String)
    (net : NetOutcome) (w : World) : World :=
  let html := "<img src=\"" ++ result ++ "\" alt=\"Preview\">"
  let w1 : World := { w with page := preview.setHTML html w.page }
  if input.id = "encodeImage" then calculateCapacity h result net w1 else w1

/-- The handler `handleFileSelect(input, preview)`; `read` is the outcome of
the `FileReader` it starts and `net` that of the capacity query, if one is
made. -/
def handleFileSelect (h : Host) (input : FileInput) (preview : Preview)
    (read : ReadOutcome) (net : NetOutcome) (w : World) : World :=
  match input.file0 with
  | none => w
  | some file =>
    if file.isImage then
      match read with
      | .loaded result => onload h input preview result net w
      | .failed => w
    else w

/-- The file inputs wired up by `setupFileUpload` in the `DOMContentLoaded`
handler, each with the preview element it is paired with. -/
def wiredInput (v : Preview) (p : Page) : FileInput :=
  match v with
  | .encodePreview => { id := "encodeImage", file0 := p.encodeImageFile }
  | .decodePreview => { id := "decodeImage", file0 := p.decodeImageFile }
  | .analyzePreview => { id := "analyzeImage", file0 := p.analyzeImageFile }

/-! ## Reading the trace -/

/-- The requests issued, oldest first. -/
def requests : List Effect → List Request
  | [] => []
  | .fetch r :: es => r :: requests es
  | _ :: es => requests es

/-- The alerts raised, oldest first. -/
def alerts : List Effect → List String
  | [] => []
  | .alert m :: es => m :: alerts es
  | _ :: es => alerts es

/-- A piece of script that leaves the `loading` class and the file previews
alone and issues no request. -/
def Script.Quiet {α : Type} (m : Script α) : Prop :=
  ∀ w, (m w).2.page.bodyLoading = w.page.bodyLoading ∧
    (∀ v : Preview, v.getHTML (m w).2.page = v.getHTML w.page) ∧
    requests (m w).2.log = requests w.log

/-- The `lsb_bits` value a request carries, if any. -/
def lsbBitsSent (r : Request) : Option String :=
  match r.body with
  | .formData entries =>
    match entries.lookup "lsb_bits" with
    | some (.text s) => some s
    | _ => none
  | .json members =>
    match members.lookup "lsb_bits" with
    | some (.str s) => some s
    | _ => none

/-- The decimal numerals of the integers 1 to 8, the admissible bit depths. -/
def bitDepthNumerals : List String := ["1", "2", "3", "4", "5", "6", "7", "8"]

/-- The order of the three score classes: low, medium, high. -/
def classRank (c : String) : Nat :=
  if c = "security-score high" then 2
  else if c = "security-score medium" then 1
  else 0

/-! ## Sample inputs -/

/-- A host used to evaluate the handlers on concrete inputs.  Its number
built-ins are placeholders: the sample inputs below are chosen so that no
result stated about them depends on how a number is printed or parsed. -/
def sampleHost : Host :=
  { numToString := fun _ => "0",
    strToNumber := fun _ => .nan,
    mul := fun a _ => a,
    toFixed := fun _ _ => "0.0",
    typeErrorMessage := fun _ name => "Cannot read properties (reading " ++ name ++ ")",
    convertErrorMessage := "Cannot convert object to primitive value" }

/-- A freshly loaded page: nothing selected, nothing typed, nothing shown. -/
def emptyPage : Page :=
  { encodeImageFile := none, decodeImageFile := none, analyzeImageFile := none,
    secretMessage := "", encodePassword := "", lsbBits := "1", useCompression := false,
    decodePassword := "", decodeLsbBits := "1", bodyLoading := false,
    encodePreviewHTML := "", decodePreviewHTML := "", analyzePreviewHTML := "",
    capacityInfoText := "", stegoPreviewHTML := "", securityScoreText := "",
    securityScoreClass := "", encodeResultDisplay := "", decodedMessageText := "",
    decodeResultDisplay := "", analysisReportText := "", analyzeResultDisplay := "" }

/-- A PNG file. -/
def pngFile : File := { name := "cover.png", type := "image/png" }

/-- A text file. -/
def txtFile : File := { name := "notes.txt", type := "text/plain" }

/-- The encode tab filled in: image, message and password present. -/
def encodeReady : World :=
  { page := { emptyPage with encodeImageFile := some pngFile, secretMessage := "hello",
                             encodePassword := "pw", lsbBits := "2", useCompression := true },
    log := [] }

/-- The encode tab with an image and a message but no password. -/
def encodeNoPassword : World :=
  { page := { emptyPage with encodeImageFile := some pngFile, secretMessage := "hello" },
    log := [] }

/-- The decode tab filled in: image and password present. -/
def decodeReady : World :=
  { page := { emptyPage with decodeImageFile := some pngFile, decodePassword := "pw",
                             decodeLsbBits := "2" },
    log := [] }

/-- The decode tab with an image but no password. -/
def decodeNoPassword : World :=
  { page := { emptyPage with decodeImageFile := some pngFile }, log := [] }

/-- The analyze tab with an image selected. -/
def analyzeReady : World :=
  { page := { emptyPage with analyzeImageFile := some pngFile }, log := [] }

/-- A failure response `{ success: false, error: "bad image" }`. -/
def failureResponse : Value := .obj [("success", .bool false), ("error", .str "bad image")]

/-- A decode response `{ success: true, message: "hello" }`. -/
def decodeOk : Value := .obj [("success", .bool true), ("message", .str "hello")]

/-- The encode tab filled in, with the `lsbBits` control holding `9`. -/
def encodeNineBits : World :=
  { page := { emptyPage with encodeImageFile := some pngFile, secretMessage := "hello",
                             encodePassword := "pw", lsbBits := "9" },
    log := [] }

/-- A freshly loaded page with an empty trace. -/
def emptyWorld : World := { page := emptyPage, log := [] }

/-- A capacity response `{ success: true, capacity: { capacity_bytes: "3738",
capacity_kb: "3.65" } }`. -/
def capacityOk : Value :=
  .obj [("success", .bool true),
        ("capacity", .obj [("capacity_bytes", .str "3738"), ("capacity_kb", .str "3.65")])]

/-- An encode response `{ success: true, image: "data:,", security_score: 0.5 }`. -/
def encodeOkHalf : Value :=
  .obj [("success", .bool true), ("image", .str "data:,"),
        ("security_score", .num (.fin (1 / 2)))]

/-- An encode response `{ success: true, image: "data:,", security_score: 0.9 }`;
the score is the double nearest to 9/10. -/
def encodeOkHigh : Value :=
  .obj [("success", .bool true), ("image", .str "data:,"),
        ("security_score", .num (.fin (8106479329266893 / 9007199254740992)))]

/-- The encode input holding a PNG file. -/
def pngInEncode : FileInput := { id := "encodeImage", file0 := some pngFile }

/-- The encode input holding a text file. -/
def txtInEncode : FileInput := { id := "encodeImage", file0 := some txtFile }

/-! ## Basic facts about the embedding -/

theorem Script.bind_eq {α β : Type} (m : Script α) (f : α → Script β) :
    (m >>= f) = Script.andThen m f := rfl

theorem Script.pure_eq {α : Type} (a : α) : (pure a : Script α) = Script.ret a := rfl

theorem getProp_ok_other (h : Host) (data v : Value) (a b : String)
    (hs : getProp h data a = .ok v) : ∃ u, getProp h data b = .ok u := by
  cases data <;> simp [getProp] at hs ⊢

theorem requests_append (xs ys : List Effect) :
    requests (xs ++ ys) = requests xs ++ requests ys := by
  induction xs with
  | nil => rfl
  | cons e es ih => cases e <;> simp [requests, ih]

theorem alerts_append (xs ys : List Effect) :
    alerts (xs ++ ys) = alerts xs ++ alerts ys := by
  induction xs with
  | nil => rfl
  | cons e es ih => cases e <;> simp [alerts, ih]

theorem toStr_str (h : Host) (s : String) : toStr h (.str s) = .ok s := by
  simp [toStr]

theorem toStr_num (h : Host) (n : JSNumber) : toStr h (.num n) = .ok (h.numToString n) := by
  simp [toStr]

theorem domText_str (h : Host) (s : String) : domText h (.str s) = .ok s := by
  simp [domText, toStr]

theorem toNumber_num (h : Host) (n : JSNumber) : toNumber h (.num n) = .ok n := by
  simp [toNumber]

/-! ### Script pieces that leave the `loading` class, the previews and the requests alone -/

theorem Script.quiet_ret {α : Type} (a : α) : (Script.ret a).Quiet :=
  fun _ => ⟨rfl, fun _ => rfl, rfl⟩

theorem Script.quiet_eval {α : Type} (x : Except JSError α) : (Script.eval x).Quiet :=
  fun _ => ⟨rfl, fun _ => rfl, rfl⟩

theorem Script.quiet_update (f : Page → Page)
    (hf : ∀ p, (f p).bodyLoading = p.bodyLoading ∧
      ∀ v : Preview, v.getHTML (f p) = v.getHTML p) :
    (Script.update f).Quiet :=
  fun w => ⟨(hf w.page).1, (hf w.page).2, rfl⟩

theorem Script.quiet_alert (msg : String) : (Script.emit (.alert msg)).Quiet := by
  intro w
  simp [Script.emit, requests_append, requests]

theorem Script.quiet_andThen {α β : Type} (m : Script α) (f : α → Script β)
    (hm : m.Quiet) (hf : ∀ a, (f a).Quiet) : (Script.andThen m f).Quiet := by
  intro w
  unfold Script.andThen
  have h1 := hm w
  rcases hmw : m w with ⟨r, w1⟩
  rw [hmw] at h1
  cases r with
  | error e => exact h1
  | ok a =>
    have h2 := hf a w1
    exact ⟨h2.1.trans h1.1, fun v => (h2.2.1 v).trans (h1.2.1 v), h2.2.2.trans h1.2.2⟩

theorem awaitJson_quiet (net : NetOutcome) : (awaitJson net).Quiet := by
  cases net <;> intro w <;> exact ⟨rfl, fun _ => rfl, rfl⟩

theorem capacityResume_quiet (h : Host) (net : NetOutcome) : (capacityResume h net).Quiet := by
  unfold capacityResume
  simp only [Script.bind_eq]
  refine Script.quiet_andThen _ _ (awaitJson_quiet net) (fun data => ?_)
  refine Script.quiet_andThen _ _ (Script.quiet_eval _) (fun success => ?_)
  split
  · repeat (first
      | exact Script.quiet_update _ (fun _ => ⟨rfl, fun v => by cases v <;> rfl⟩)
      | exact Script.quiet_eval _
      | refine Script.quiet_andThen _ _ ?_ (fun _ => ?_))
  · exact Script.quiet_ret _

theorem encodeResume_quiet (h : Host) (net : NetOutcome) : (encodeResume h net).Quiet := by
  unfold encodeResume
  simp only [Script.bind_eq]
  refine Script.quiet_andThen _ _ (awaitJson_quiet net) (fun data => ?_)
  refine Script.quiet_andThen _ _ (Script.quiet_eval _) (fun success => ?_)
  split
  · repeat (first
      | exact Script.quiet_update _ (fun _ => ⟨rfl, fun v => by cases v <;> rfl⟩)
      | exact Script.quiet_eval _
      | refine Script.quiet_andThen _ _ ?_ (fun _ => ?_))
  · repeat (first
      | exact Script.quiet_alert _
      | exact Script.quiet_eval _
      | refine Script.quiet_andThen _ _ ?_ (fun _ => ?_))

theorem decodeResume_quiet (h : Host) (net : NetOutcome) : (decodeResume h net).Quiet := by
  unfold decodeResume
  simp only [Script.bind_eq]
  refine Script.quiet_andThen _ _ (awaitJson_quiet net) (fun data => ?_)
  refine Script.quiet_andThen _ _ (Script.quiet_eval _) (fun success => ?_)
  split
  · repeat (first
      | exact Script.quiet_update _ (fun _ => ⟨rfl, fun v => by cases v <;> rfl⟩)
      | exact Script.quiet_eval _
      | refine Script.quiet_andThen _ _ ?_ (fun _ => ?_))
  · repeat (first
      | exact Script.quiet_alert _
      | exact Script.quiet_eval _
      | refine Script.quiet_andThen _ _ ?_ (fun _ => ?_))

theorem analyzeResume_quiet (h : Host) (net : NetOutcome) : (analyzeResume h net).Quiet := by
  unfold analyzeResume
  simp only [Script.bind_eq]
  refine Script.quiet_andThen _ _ (awaitJson_quiet net) (fun data => ?_)
  refine Script.quiet_andThen _ _ (Script.quiet_eval _) (fun success => ?_)
  split
  · repeat (first
      | exact Script.quiet_update _ (fun _ => ⟨rfl, fun v => by cases v <;> rfl⟩)
      | exact Script.quiet_eval _
      | refine Script.quiet_andThen _ _ ?_ (fun _ => ?_))
  · repeat (first
      | exact Script.quiet_alert _
      | exact Script.quiet_eval _
      | refine Script.quiet_andThen _ _ ?_ (fun _ => ?_))

/-- The effect on the trace and on the `loading` class of a `try` block's
response handling followed by its `catch` clause: no request is issued, and
the class is left as it was. -/
theorem handled_frame (label : String) (m : Script Unit) (hq : m.Quiet) (w : World) :
    (catchAlert label (m w)).page.bodyLoading = w.page.bodyLoading ∧
    requests (catchAlert label (m w)).log = requests w.log := by
  have h1 := hq w
  rcases hmw : m w with ⟨r, w1⟩
  rw [hmw] at h1
  cases r with
  | ok a => exact ⟨h1.1, h1.2.2⟩
  | error e =>
    simp only [catchAlert, alert]
    refine ⟨h1.1, ?_⟩
    rw [requests_append, h1.2.2]
    simp [requests]

/-! ### Outcomes of the decode response handling -/

theorem decodeResume_success (h : Host) (data v m : Value) (t : String) (w : World)
    (hs : getProp h data "success" = .ok v) (ht : v.truthy = true)
    (hm : getProp h data "message" = .ok m) (hmt : domText h m = .ok t) :
    decodeResume h (.json data) w =
      (.ok (), { w with page := { w.page with
        decodedMessageText := t, decodeResultDisplay := "block" } }) := by
  simp [decodeResume, awaitJson, Script.bind_eq, Script.andThen, Script.ret, Script.eval,
    Script.update, hs, ht, hm, hmt]

theorem decodeResume_success_throw (h : Host) (data v m : Value) (e : JSError) (w : World)
    (hs : getProp h data "success" = .ok v) (ht : v.truthy = true)
    (hm : getProp h data "message" = .ok m) (hmt : domText h m = .error e) :
    decodeResume h (.json data) w = (.error e, w) := by
  simp [decodeResume, awaitJson, Script.bind_eq, Script.andThen, Script.ret, Script.eval,
    hs, ht, hm, hmt]

theorem decodeResume_failure (h : Host) (data v e : Value) (t : String) (w : World)
    (hs : getProp h data "success" = .ok v) (ht : v.truthy = false)
    (he : getProp h data "error" = .ok e) (het : toStr h e = .ok t) :
    decodeResume h (.json data) w =
      (.ok (), { w with log := w.log ++ [.alert ("Decoding failed: " ++ t)] }) := by
  simp [decodeResume, awaitJson, Script.bind_eq, Script.andThen, Script.ret, Script.eval,
    Script.emit, hs, ht, he, het]

theorem decodeResume_failure_throw (h : Host) (data v e : Value) (x : JSError) (w : World)
    (hs : getProp h data "success" = .ok v) (ht : v.truthy = false)
    (he : getProp h data "error" = .ok e) (het : toStr h e = .error x) :
    decodeResume h (.json data) w = (.error x, w) := by
  simp [decodeResume, awaitJson, Script.bind_eq, Script.andThen, Script.ret, Script.eval,
    hs, ht, he, het]

theorem decodeResume_typeError (h : Host) (data : Value) (e : JSError) (w : World)
    (hs : getProp h data "success" = .error e) :
    decodeResume h (.json data) w = (.error e, w) := by
  simp [decodeResume, awaitJson, Script.bind_eq, Script.andThen, Script.ret, Script.eval, hs]

theorem decodeResume_fetchRejected (h : Host) (e : JSError) (w : World) :
    decodeResume h (.fetchRejected e) w = (.error e, w) := by
  simp [decodeResume, awaitJson, Script.bind_eq, Script.andThen, Script.eval]

theorem decodeResume_jsonRejected (h : Host) (e : JSError) (w : World) :
    decodeResume h (.jsonRejected e) w = (.error e, w) := by
  simp [decodeResume, awaitJson, Script.bind_eq, Script.andThen, Script.eval]

theorem decodeImage_valid (h : Host) (net : NetOutcome) (w : World) (f : File)
    (hf : w.page.decodeImageFile = some f) (hp : w.page.decodePassword ≠ "") :
    decodeImage h net w = removeLoading (catchAlert "Decoding error: "
      (decodeResume h net (sendForm "/api/decode" (decodeFormData f w.page) w))) := by
  simp [decodeImage, hf, hp]

/-! ### Outcomes of the encode response handling -/

theorem scoreClass_ok (h : Host) (data sc : Value) (n : JSNumber)
    (hsc : getProp h data "security_score" = .ok sc) (hn : toNumber h sc = .ok n) :
    scoreClass h data = .ok (if n.gt lit_0_7 = true then "high"
      else if n.gt lit_0_4 = true then "medium" else "low") := by
  unfold scoreClass
  rw [hsc]
  by_cases h7 : n.gt lit_0_7 = true
  · simp [hn, h7, bind, Except.bind, pure, Except.pure]
  · by_cases h4 : n.gt lit_0_4 = true
    · simp [hn, h7, h4, bind, Except.bind, pure, Except.pure]
    · simp [hn, h7, h4, bind, Except.bind, pure, Except.pure]

theorem percentText_ok (h : Host) (sc : Value) (n : JSNumber) (hn : toNumber h sc = .ok n) :
    percentText h sc = .ok (h.toFixed (h.mul n lit_100) 1) := by
  simp [percentText, hn, bind, Except.bind, pure, Except.pure]

theorem encodeResume_success (h : Host) (data v img sc : Value) (it : String) (n : JSNumber)
    (w : World)
    (hs : getProp h data "success" = .ok v) (ht : v.truthy = true)
    (hi : getProp h data "image" = .ok img) (hit : toStr h img = .ok it)
    (hsc : getProp h data "security_score" = .ok sc) (hn : toNumber h sc = .ok n) :
    encodeResume h (.json data) w =
      (.ok (), { w with page := { w.page with
        stegoPreviewHTML := "<img src=\"" ++ it ++ "\" alt=\"Stego Image\">",
        securityScoreText := "Security Score: " ++ h.toFixed (h.mul n lit_100) 1 ++ "%",
        securityScoreClass := "security-score " ++
          (if n.gt lit_0_7 = true then "high"
           else if n.gt lit_0_4 = true then "medium" else "low"),
        encodeResultDisplay := "block" } }) := by
  simp [encodeResume, awaitJson, Script.bind_eq, Script.andThen, Script.ret, Script.eval,
    Script.update, hs, ht, hi, hit, hsc, scoreClass_ok h data sc n hsc hn,
    percentText_ok h sc n hn]

theorem encodeResume_failure (h : Host) (data v e : Value) (t : String) (w : World)
    (hs : getProp h data "success" = .ok v) (ht : v.truthy = false)
    (he : getProp h data "error" = .ok e) (het : toStr h e = .ok t) :
    encodeResume h (.json data) w =
      (.ok (), { w with log := w.log ++ [.alert ("Encoding failed: " ++ t)] }) := by
  simp [encodeResume, awaitJson, Script.bind_eq, Script.andThen, Script.ret, Script.eval,
    Script.emit, hs, ht, he, het]

theorem encodeResume_fetchRejected (h : Host) (e : JSError) (w : World) :
    encodeResume h (.fetchRejected e) w = (.error e, w) := by
  simp [encodeResume, awaitJson, Script.bind_eq, Script.andThen, Script.eval]

theorem encodeResume_jsonRejected (h : Host) (e : JSError) (w : World) :
    encodeResume h (.jsonRejected e) w = (.error e, w) := by
  simp [encodeResume, awaitJson, Script.bind_eq, Script.andThen, Script.eval]

theorem encodeImage_valid (h : Host) (net : NetOutcome) (w : World) (f : File)
    (hf : w.page.encodeImageFile = some f) (hm : w.page.secretMessage ≠ "")
    (hp : w.page.encodePassword ≠ "") :
    encodeImage h net w = removeLoading (catchAlert "Encoding error: "
      (encodeResume h net (sendForm "/api/encode" (encodeFormData f w.page) w))) := by
  simp [encodeImage, hf, hm, hp]

/-! ### Outcomes of the analyze response handling -/

theorem analyzeResume_failure (h : Host) (data v e : Value) (t : String) (w : World)
    (hs : getProp h data "success" = .ok v) (ht : v.truthy = false)
    (he : getProp h data "error" = .ok e) (het : toStr h e = .ok t) :
    analyzeResume h (.json data) w =
      (.ok (), { w with log := w.log ++ [.alert ("Analysis failed: " ++ t)] }) := by
  simp [analyzeResume, awaitJson, Script.bind_eq, Script.andThen, Script.ret, Script.eval,
    Script.emit, hs, ht, he, het]

theorem analyzeResume_fetchRejected (h : Host) (e : JSError) (w : World) :
    analyzeResume h (.fetchRejected e) w = (.error e, w) := by
  simp [analyzeResume, awaitJson, Script.bind_eq, Script.andThen, Script.eval]

theorem analyzeResume_jsonRejected (h : Host) (e : JSError) (w : World) :
    analyzeResume h (.jsonRejected e) w = (.error e, w) := by
  simp [analyzeResume, awaitJson, Script.bind_eq, Script.andThen, Script.eval]

theorem analyzeImage_valid (h : Host) (net : NetOutcome) (w : World) (f : File)
    (hf : w.page.analyzeImageFile = some f) :
    analyzeImage h net w = removeLoading (catchAlert "Analysis error: "
      (analyzeResume h net (sendForm "/api/analyze" [("image", .file f)] w))) := by
  simp [analyzeImage, hf]

/-! ### Outcomes of the capacity response handling -/

theorem capacityResume_success (h : Host) (data v c b k : Value) (bt kt : String) (w : World)
    (hs : getProp h data "success" = .ok v) (ht : v.truthy = true)
    (hc : getProp h data "capacity" = .ok c)
    (hb : getProp h c "capacity_bytes" = .ok b) (hbt : toStr h b = .ok bt)
    (hk : getProp h c "capacity_kb" = .ok k) (hkt : toStr h k = .ok kt) :
    capacityResume h (.json data) w =
      (.ok (), { w with page := { w.page with
        capacityInfoText := "Capacity: " ++ bt ++ " bytes (" ++ kt ++ " KB)" } }) := by
  simp [capacityResume, awaitJson, Script.bind_eq, Script.andThen, Script.ret, Script.eval,
    Script.update, hs, ht, hc, hb, hbt, hk, hkt]

theorem capacityResume_failure (h : Host) (data v : Value) (w : World)
    (hs : getProp h data "success" = .ok v) (ht : v.truthy = false) :
    capacityResume h (.json data) w = (.ok (), w) := by
  simp [capacityResume, awaitJson, Script.bind_eq, Script.andThen, Script.ret, Script.eval,
    hs, ht]

theorem capacityResume_fetchRejected (h : Host) (e : JSError) (w : World) :
    capacityResume h (.fetchRejected e) w = (.error e, w) := by
  simp [capacityResume, awaitJson, Script.bind_eq, Script.andThen, Script.eval]

theorem capacityResume_jsonRejected (h : Host) (e : JSError) (w : World) :
    capacityResume h (.jsonRejected e) w = (.error e, w) := by
  simp [capacityResume, awaitJson, Script.bind_eq, Script.andThen, Script.eval]

theorem calculateCapacity_run (h : Host) (d : String) (net : NetOutcome) (w : World) :
    (calculateCapacity h d net w).page.bodyLoading = w.page.bodyLoading ∧
      (∀ v : Preview, v.getHTML (calculateCapacity h d net w).page = v.getHTML w.page) ∧
      requests (calculateCapacity h d net w).log =
        requests w.log ++ [capacityRequest d w.page.lsbBits] := by
  have hq := capacityResume_quiet h net
    { w with log := w.log ++ [.fetch (capacityRequest d w.page.lsbBits)] }
  simp only [calculateCapacity]
  rcases hr : capacityResume h net
    { w with log := w.log ++ [.fetch (capacityRequest d w.page.lsbBits)] } with ⟨r, w2⟩
  rw [hr] at hq
  simp only [requests_append] at hq
  cases r with
  | ok a =>
    refine ⟨hq.1, hq.2.1, ?_⟩
    simp only
    rw [hq.2.2]
    simp [requests]
  | error e =>
    refine ⟨hq.1, hq.2.1, ?_⟩
    simp only
    rw [requests_append, hq.2.2]
    simp [requests]

theorem calculateCapacity_requests (h : Host) (d : String) (net : NetOutcome) (w : World) :
    requests (calculateCapacity h d net w).log =
      requests w.log ++ [capacityRequest d w.page.lsbBits] := by
  exact (calculateCapacity_run h d net w).2.2

theorem calculateCapacity_preview (v : Preview) (h : Host) (d : String) (net : NetOutcome)
    (w : World) : v.getHTML (calculateCapacity h d net w).page = v.getHTML w.page := by
  exact (calculateCapacity_run h d net w).2.1 v

/-! ### Failed validation -/

theorem encodeImage_invalid (h : Host) (net : NetOutcome) (w : World)
    (hbad : w.page.encodeImageFile = none ∨ w.page.secretMessage = "" ∨
      w.page.encodePassword = "") :
    (encodeImage h net w).page = w.page ∧
    (encodeImage h net w).log = w.log ++ [.alert
      (if w.page.encodeImageFile = none then "Please select an image first"
       else if w.page.secretMessage = "" then "Please enter a secret message"
       else "Please enter a password")] := by
  unfold encodeImage
  cases hf : w.page.encodeImageFile with
  | none => simp [alert]
  | some f =>
    by_cases hm : w.page.secretMessage = ""
    · simp [alert, hm]
    · by_cases hp : w.page.encodePassword = ""
      · simp [alert, hm, hp]
      · rcases hbad with h1 | h1 | h1
        · simp [hf] at h1
        · exact absurd h1 hm
        · exact absurd h1 hp

theorem decodeImage_invalid (h : Host) (net : NetOutcome) (w : World)
    (hbad : w.page.decodeImageFile = none ∨ w.page.decodePassword = "") :
    (decodeImage h net w).page = w.page ∧
    (decodeImage h net w).log = w.log ++ [.alert
      (if w.page.decodeImageFile = none then "Please select an image first"
       else "Please enter the password")] := by
  unfold decodeImage
  cases hf : w.page.decodeImageFile with
  | none => simp [alert]
  | some f =>
    by_cases hp : w.page.decodePassword = ""
    · simp [alert, hp]
    · rcases hbad with h1 | h1
      · simp [hf] at h1
      · exact absurd h1 hp

theorem analyzeImage_invalid (h : Host) (net : NetOutcome) (w : World)
    (hf : w.page.analyzeImageFile = none) :
    (analyzeImage h net w).page = w.page ∧
    (analyzeImage h net w).log = w.log ++ [.alert "Please select an image first"] := by
  simp [analyzeImage, hf, alert]

/-! ## Input validation and the requests sent -/

/-- Claim C2: when no image is selected, or the message is empty, or the
password is empty, `encodeImage` leaves the whole page as it was (so the
`loading` class is not added and no result element changes) and adds to the
trace exactly one effect, an alert, chosen by the first failing check in the
order image, message, password; in particular no request is issued. -/
theorem encodeImage_rejects_invalid (h : Host) (net : NetOutcome) (w : World)
    (hbad : w.page.encodeImageFile = none ∨ w.page.secretMessage = "" ∨
      w.page.encodePassword = "") :
    (encodeImage h net w).page = w.page ∧
    (encodeImage h net w).log = w.log ++ [.alert
      (if w.page.encodeImageFile = none then "Please select an image first"
       else if w.page.secretMessage = "" then "Please enter a secret message"
       else "Please enter a password")] ∧
    requests (encodeImage h net w).log = requests w.log := by
  have key := encodeImage_invalid h net w hbad
  refine ⟨key.1, key.2, ?_⟩
  rw [key.2, requests_append]
  simp [requests]

/-- Witness for C2: with an image and a message but an empty password, the
page is unchanged and the only effect is the password alert. -/
theorem encodeImage_rejects_invalid_witness :
    (encodeImage sampleHost (.json decodeOk) encodeNoPassword).page = encodeNoPassword.page ∧
    (encodeImage sampleHost (.json decodeOk) encodeNoPassword).log =
      [.alert "Please enter a password"] ∧
    requests (encodeImage sampleHost (.json decodeOk) encodeNoPassword).log = [] :=
  encodeImage_rejects_invalid sampleHost (.json decodeOk) encodeNoPassword
    (Or.inr (Or.inr rfl))

/-- Claim C3: with an image selected and a non-empty message and password,
`encodeImage` issues exactly one request, whatever the network answers: a
POST to `/api/encode` whose form data has exactly the five entries image,
message, password, lsb_bits, compression, in that order, holding the first
selected file, the message, the password, the value of the `lsbBits` control
and the checked state of `useCompression`. -/
theorem encodeImage_request (h : Host) (net : NetOutcome) (w : World) (f : File)
    (hf : w.page.encodeImageFile = some f) (hm : w.page.secretMessage ≠ "")
    (hp : w.page.encodePassword ≠ "") :
    requests (encodeImage h net w).log = requests w.log ++
      [{ url := "/api/encode", method := "POST", headers := [],
         body := .formData [("image", .file f), ("message", .text w.page.secretMessage),
           ("password", .text w.page.encodePassword), ("lsb_bits", .text w.page.lsbBits),
           ("compression", .text (if w.page.useCompression then "true" else "false"))] }] := by
  rw [encodeImage_valid h net w f hf hm hp]
  have hfr := (handled_frame "Encoding error: " (encodeResume h net)
    (encodeResume_quiet h net) (sendForm "/api/encode" (encodeFormData f w.page) w)).2
  simp only [removeLoading]
  rw [hfr]
  simp [sendForm, requests_append, requests, encodeFormData]

/-- Witness for C3: the filled-in encode tab sends its five fields. -/
theorem encodeImage_request_witness :
    requests (encodeImage sampleHost (.json failureResponse) encodeReady).log =
      [{ url := "/api/encode", method := "POST", headers := [],
         body := .formData [("image", .file pngFile), ("message", .text "hello"),
           ("password", .text "pw"), ("lsb_bits", .text "2"),
           ("compression", .text "true")] }] :=
  encodeImage_request sampleHost (.json failureResponse) encodeReady pngFile rfl
    (by decide) (by decide)

/-- Claim C4: `decodeImage` issues a request if and only if an image file is
selected and the password is non-empty; it is then a single POST to
`/api/decode` whose form data has exactly the entries image, password,
lsb_bits, in that order, with the form values; otherwise the page is
unchanged and the only effect is one alert, for the image check first and
for the password check second. -/
theorem decodeImage_request_iff (h : Host) (net : NetOutcome) (w : World) :
    (requests (decodeImage h net w).log ≠ requests w.log ↔
      (w.page.decodeImageFile ≠ none ∧ w.page.decodePassword ≠ "")) ∧
    (∀ f, w.page.decodeImageFile = some f → w.page.decodePassword ≠ "" →
      requests (decodeImage h net w).log = requests w.log ++
        [{ url := "/api/decode", method := "POST", headers := [],
           body := .formData [("image", .file f), ("password", .text w.page.decodePassword),
             ("lsb_bits", .text w.page.decodeLsbBits)] }]) ∧
    ((w.page.decodeImageFile = none ∨ w.page.decodePassword = "") →
      (decodeImage h net w).page = w.page ∧
      (decodeImage h net w).log = w.log ++ [.alert
        (if w.page.decodeImageFile = none then "Please select an image first"
         else "Please enter the password")]) := by
  have hvalid : ∀ f, w.page.decodeImageFile = some f → w.page.decodePassword ≠ "" →
      requests (decodeImage h net w).log = requests w.log ++
        [{ url := "/api/decode", method := "POST", headers := [],
           body := .formData [("image", .file f), ("password", .text w.page.decodePassword),
             ("lsb_bits", .text w.page.decodeLsbBits)] }] := by
    intro f hf hp
    rw [decodeImage_valid h net w f hf hp]
    have hfr := (handled_frame "Decoding error: " (decodeResume h net)
      (decodeResume_quiet h net) (sendForm "/api/decode" (decodeFormData f w.page) w)).2
    simp only [removeLoading]
    rw [hfr]
    simp [sendForm, requests_append, requests, decodeFormData]
  have hinvalid := decodeImage_invalid h net w
  refine ⟨?_, hvalid, hinvalid⟩
  constructor
  · intro hne
    by_contra hcon
    have hbad : w.page.decodeImageFile = none ∨ w.page.decodePassword = "" := by
      by_cases h1 : w.page.decodeImageFile = none
      · exact Or.inl h1
      · by_cases h2 : w.page.decodePassword = ""
        · exact Or.inr h2
        · exact absurd ⟨h1, h2⟩ hcon
    apply hne
    rw [(hinvalid hbad).2, requests_append]
    simp [requests]
  · rintro ⟨h1, h2⟩
    cases hf : w.page.decodeImageFile with
    | none => exact absurd hf h1
    | some f =>
      rw [hvalid f hf h2]
      simp

/-- Witness for C4: the filled-in decode tab sends its three fields, and the
decode tab without a password only raises the password alert. -/
theorem decodeImage_request_iff_witness :
    requests (decodeImage sampleHost (.json decodeOk) decodeReady).log =
      [{ url := "/api/decode", method := "POST", headers := [],
         body := .formData [("image", .file pngFile), ("password", .text "pw"),
           ("lsb_bits", .text "2")] }] ∧
    ((decodeImage sampleHost (.json decodeOk) decodeNoPassword).page = decodeNoPassword.page ∧
     (decodeImage sampleHost (.json decodeOk) decodeNoPassword).log =
       [.alert "Please enter the password"]) :=
  ⟨(decodeImage_request_iff sampleHost (.json decodeOk) decodeReady).2.1 pngFile rfl (by decide),
   (decodeImage_request_iff sampleHost (.json decodeOk) decodeNoPassword).2.2 (Or.inr rfl)⟩

/-! ## Decode is all-or-nothing -/

theorem decodeResume_falsy_page (h : Host) (data v : Value) (w : World)
    (hs : getProp h data "success" = .ok v) (ht : v.truthy = false) :
    (decodeResume h (.json data) w).2.page = w.page := by
  obtain ⟨e, he⟩ := getProp_ok_other h data v "success" "error" hs
  cases het : toStr h e with
  | ok t => rw [decodeResume_failure h data v e t w hs ht he het]
  | error x => rw [decodeResume_failure_throw h data v e x w hs ht he het]

theorem catchAlert_page (label : String) (r : Except JSError Unit × World) :
    (catchAlert label r).page = r.2.page := by
  rcases r with ⟨r, w⟩
  cases r <;> rfl

/-- Claim C5: once the decode request is out, a response with a truthy
`success` (whose `message` converts to text, as the string of the interface
does) sets the `decodedMessage` text to exactly `data.message` and shows the
`decodeResult` element; for a response whose `success` is falsy, a response
that is `null`, or a request that throws, the text and the visibility are
left exactly as they were. -/
theorem decodeImage_all_or_nothing (h : Host) (w : World) (f : File)
    (hf : w.page.decodeImageFile = some f) (hp : w.page.decodePassword ≠ "") :
    (∀ data v m t, getProp h data "success" = .ok v → v.truthy = true →
      getProp h data "message" = .ok m → domText h m = .ok t →
      (decodeImage h (.json data) w).page.decodedMessageText = t ∧
      (decodeImage h (.json data) w).page.decodeResultDisplay = "block") ∧
    (∀ data v s, getProp h data "success" = .ok v → v.truthy = true →
      getProp h data "message" = .ok (.str s) →
      (decodeImage h (.json data) w).page.decodedMessageText = s ∧
      (decodeImage h (.json data) w).page.decodeResultDisplay = "block") ∧
    (∀ data v, getProp h data "success" = .ok v → v.truthy = false →
      (decodeImage h (.json data) w).page.decodedMessageText = w.page.decodedMessageText ∧
      (decodeImage h (.json data) w).page.decodeResultDisplay = w.page.decodeResultDisplay) ∧
    (∀ data e, getProp h data "success" = .error e →
      (decodeImage h (.json data) w).page.decodedMessageText = w.page.decodedMessageText ∧
      (decodeImage h (.json data) w).page.decodeResultDisplay = w.page.decodeResultDisplay) ∧
    (∀ e, (decodeImage h (.fetchRejected e) w).page.decodedMessageText
        = w.page.decodedMessageText ∧
      (decodeImage h (.fetchRejected e) w).page.decodeResultDisplay
        = w.page.decodeResultDisplay) ∧
    (∀ e, (decodeImage h (.jsonRejected e) w).page.decodedMessageText
        = w.page.decodedMessageText ∧
      (decodeImage h (.jsonRejected e) w).page.decodeResultDisplay
        = w.page.decodeResultDisplay) := by
  have hset : ∀ data v m t, getProp h data "success" = .ok v → v.truthy = true →
      getProp h data "message" = .ok m → domText h m = .ok t →
      (decodeImage h (.json data) w).page.decodedMessageText = t ∧
      (decodeImage h (.json data) w).page.decodeResultDisplay = "block" := by
    intro data v m t hs ht hm hmt
    rw [decodeImage_valid h _ w f hf hp, decodeResume_success h data v m t _ hs ht hm hmt]
    exact ⟨rfl, rfl⟩
  refine ⟨hset, ?_, ?_, ?_, ?_, ?_⟩
  · intro data v s hs ht hm
    exact hset data v (.str s) s hs ht hm (domText_str h s)
  · intro data v hs ht
    rw [decodeImage_valid h _ w f hf hp]
    simp only [removeLoading, catchAlert_page, decodeResume_falsy_page h data v _ hs ht]
    exact ⟨rfl, rfl⟩
  · intro data e hs
    rw [decodeImage_valid h _ w f hf hp, decodeResume_typeError h data e _ hs]
    exact ⟨rfl, rfl⟩
  · intro e
    rw [decodeImage_valid h _ w f hf hp, decodeResume_fetchRejected]
    exact ⟨rfl, rfl⟩
  · intro e
    rw [decodeImage_valid h _ w f hf hp, decodeResume_jsonRejected]
    exact ⟨rfl, rfl⟩

/-- Witness for C5: a successful response shows its message, a failure
response leaves the message element and the result element alone. -/
theorem decodeImage_all_or_nothing_witness :
    ((decodeImage sampleHost (.json decodeOk) decodeReady).page.decodedMessageText = "hello" ∧
     (decodeImage sampleHost (.json decodeOk) decodeReady).page.decodeResultDisplay = "block") ∧
    ((decodeImage sampleHost (.json failureResponse) decodeReady).page.decodedMessageText
        = decodeReady.page.decodedMessageText ∧
     (decodeImage sampleHost (.json failureResponse) decodeReady).page.decodeResultDisplay
        = decodeReady.page.decodeResultDisplay) :=
  ⟨(decodeImage_all_or_nothing sampleHost decodeReady pngFile rfl (by decide)).2.1
      decodeOk (.bool true) "hello" rfl rfl rfl,
   (decodeImage_all_or_nothing sampleHost decodeReady pngFile rfl (by decide)).2.2.1
      failureResponse (.bool false) rfl rfl⟩

/-! ## The `loading` class -/

/-- Claim C10: for `encodeImage`, `decodeImage` and `analyzeImage`, when the
form passes validation the `loading` class is on the body while the request
is in flight and still there after response handling and the `catch` clause,
and it is absent when the handler finishes, whatever the outcome of the
request; when validation fails the page, and so the class, is left as it
was. -/
theorem loading_invariant (h : Host) (net : NetOutcome) (w : World) :
    (∀ f, w.page.encodeImageFile = some f → w.page.secretMessage ≠ "" →
      w.page.encodePassword ≠ "" →
      (sendForm "/api/encode" (encodeFormData f w.page) w).page.bodyLoading = true ∧
      (catchAlert "Encoding error: " (encodeResume h net
        (sendForm "/api/encode" (encodeFormData f w.page) w))).page.bodyLoading = true ∧
      encodeImage h net w = removeLoading (catchAlert "Encoding error: "
        (encodeResume h net (sendForm "/api/encode" (encodeFormData f w.page) w))) ∧
      (encodeImage h net w).page.bodyLoading = false) ∧
    ((w.page.encodeImageFile = none ∨ w.page.secretMessage = "" ∨ w.page.encodePassword = "") →
      (encodeImage h net w).page = w.page) ∧
    (∀ f, w.page.decodeImageFile = some f → w.page.decodePassword ≠ "" →
      (sendForm "/api/decode" (decodeFormData f w.page) w).page.bodyLoading = true ∧
      (catchAlert "Decoding error: " (decodeResume h net
        (sendForm "/api/decode" (decodeFormData f w.page) w))).page.bodyLoading = true ∧
      decodeImage h net w = removeLoading (catchAlert "Decoding error: "
        (decodeResume h net (sendForm "/api/decode" (decodeFormData f w.page) w))) ∧
      (decodeImage h net w).page.bodyLoading = false) ∧
    ((w.page.decodeImageFile = none ∨ w.page.decodePassword = "") →
      (decodeImage h net w).page = w.page) ∧
    (∀ f, w.page.analyzeImageFile = some f →
      (sendForm "/api/analyze" [("image", .file f)] w).page.bodyLoading = true ∧
      (catchAlert "Analysis error: " (analyzeResume h net
        (sendForm "/api/analyze" [("image", .file f)] w))).page.bodyLoading = true ∧
      analyzeImage h net w = removeLoading (catchAlert "Analysis error: "
        (analyzeResume h net (sendForm "/api/analyze" [("image", .file f)] w))) ∧
      (analyzeImage h net w).page.bodyLoading = false) ∧
    (w.page.analyzeImageFile = none → (analyzeImage h net w).page = w.page) := by
  refine ⟨?_, ?_, ?_, ?_, ?_, ?_⟩
  · intro f hf hm hp
    refine ⟨rfl, ?_, encodeImage_valid h net w f hf hm hp, ?_⟩
    · rw [(handled_frame _ _ (encodeResume_quiet h net) _).1]
      rfl
    · rw [encodeImage_valid h net w f hf hm hp]
      rfl
  · intro hbad
    exact (encodeImage_invalid h net w hbad).1
  · intro f hf hp
    refine ⟨rfl, ?_, decodeImage_valid h net w f hf hp, ?_⟩
    · rw [(handled_frame _ _ (decodeResume_quiet h net) _).1]
      rfl
    · rw [decodeImage_valid h net w f hf hp]
      rfl
  · intro hbad
    exact (decodeImage_invalid h net w hbad).1
  · intro f hf
    refine ⟨rfl, ?_, analyzeImage_valid h net w f hf, ?_⟩
    · rw [(handled_frame _ _ (analyzeResume_quiet h net) _).1]
      rfl
    · rw [analyzeImage_valid h net w f hf]
      rfl
  · intro hf
    exact (analyzeImage_invalid h net w hf).1

/-- Witness for C10: the filled-in encode tab has the class while the request
is in flight and has lost it at the end; without a password the page is
untouched. -/
theorem loading_invariant_witness :
    (sendForm "/api/encode" (encodeFormData pngFile encodeReady.page)
      encodeReady).page.bodyLoading = true ∧
    (encodeImage sampleHost (.json failureResponse) encodeReady).page.bodyLoading = false ∧
    (encodeImage sampleHost (.json failureResponse) encodeNoPassword).page
      = encodeNoPassword.page :=
  ⟨((loading_invariant sampleHost (.json failureResponse) encodeReady).1 pngFile rfl
      (by decide) (by decide)).1,
   ((loading_invariant sampleHost (.json failureResponse) encodeReady).1 pngFile rfl
      (by decide) (by decide)).2.2.2,
   (loading_invariant sampleHost (.json failureResponse) encodeNoPassword).2.1
      (Or.inr (Or.inr rfl))⟩

/-! ## The capacity query -/

/-- Claim C8: `calculateCapacity(d)` issues exactly one request, a POST to
`/api/capacity` with a JSON body of exactly the two members `image = d` and
`lsb_bits =` the current value of the `lsbBits` control; when the response
has a truthy `success` (and carries the `capacity` object of the interface)
the `capacityInfo` text becomes `Capacity: <capacity_bytes> bytes
(<capacity_kb> KB)` with the two response values converted to text and
nothing else done to them; when `success` is falsy or the request throws, the
page is left as it was. -/
theorem calculateCapacity_contract (h : Host) (d : String) (w : World) :
    (∀ net, requests (calculateCapacity h d net w).log = requests w.log ++
      [{ url := "/api/capacity", method := "POST",
         headers := [("Content-Type", "application/json")],
         body := .json [("image", .str d), ("lsb_bits", .str w.page.lsbBits)] }]) ∧
    (∀ data v c b k bt kt, getProp h data "success" = .ok v → v.truthy = true →
      getProp h data "capacity" = .ok c →
      getProp h c "capacity_bytes" = .ok b → toStr h b = .ok bt →
      getProp h c "capacity_kb" = .ok k → toStr h k = .ok kt →
      (calculateCapacity h d (.json data) w).page = { w.page with
        capacityInfoText := "Capacity: " ++ bt ++ " bytes (" ++ kt ++ " KB)" }) ∧
    (∀ data v c sb sk, getProp h data "success" = .ok v → v.truthy = true →
      getProp h data "capacity" = .ok c →
      getProp h c "capacity_bytes" = .ok (.str sb) →
      getProp h c "capacity_kb" = .ok (.str sk) →
      (calculateCapacity h d (.json data) w).page.capacityInfoText
        = "Capacity: " ++ sb ++ " bytes (" ++ sk ++ " KB)") ∧
    (∀ data v c nb nk, getProp h data "success" = .ok v → v.truthy = true →
      getProp h data "capacity" = .ok c →
      getProp h c "capacity_bytes" = .ok (.num nb) →
      getProp h c "capacity_kb" = .ok (.num nk) →
      (calculateCapacity h d (.json data) w).page.capacityInfoText
        = "Capacity: " ++ h.numToString nb ++ " bytes (" ++ h.numToString nk ++ " KB)") ∧
    (∀ data v, getProp h data "success" = .ok v → v.truthy = false →
      (calculateCapacity h d (.json data) w).page = w.page) ∧
    (∀ e, (calculateCapacity h d (.fetchRejected e) w).page = w.page) ∧
    (∀ e, (calculateCapacity h d (.jsonRejected e) w).page = w.page) := by
  have hset : ∀ data v c b k bt kt, getProp h data "success" = .ok v → v.truthy = true →
      getProp h data "capacity" = .ok c →
      getProp h c "capacity_bytes" = .ok b → toStr h b = .ok bt →
      getProp h c "capacity_kb" = .ok k → toStr h k = .ok kt →
      (calculateCapacity h d (.json data) w).page = { w.page with
        capacityInfoText := "Capacity: " ++ bt ++ " bytes (" ++ kt ++ " KB)" } := by
    intro data v c b k bt kt hs ht hc hb hbt hk hkt
    unfold calculateCapacity
    simp only [capacityResume_success h data v c b k bt kt _ hs ht hc hb hbt hk hkt]
  refine ⟨fun net => calculateCapacity_requests h d net w, hset, ?_, ?_, ?_, ?_, ?_⟩
  · intro data v c sb sk hs ht hc hb hk
    rw [hset data v c _ _ sb sk hs ht hc hb (toStr_str h sb) hk (toStr_str h sk)]
  · intro data v c nb nk hs ht hc hb hk
    rw [hset data v c _ _ (h.numToString nb) (h.numToString nk) hs ht hc hb
      (toStr_num h nb) hk (toStr_num h nk)]
  · intro data v hs ht
    unfold calculateCapacity
    simp only [capacityResume_failure h data v _ hs ht]
  · intro e
    unfold calculateCapacity
    simp only [capacityResume_fetchRejected]
  · intro e
    unfold calculateCapacity
    simp only [capacityResume_jsonRejected]

/-- Witness for C8: a successful capacity response is shown verbatim, a
failure response changes nothing. -/
theorem calculateCapacity_contract_witness :
    (calculateCapacity sampleHost "data:," (.json capacityOk) emptyWorld).page.capacityInfoText
      = "Capacity: 3738 bytes (3.65 KB)" ∧
    (calculateCapacity sampleHost "data:," (.json failureResponse) emptyWorld).page
      = emptyWorld.page :=
  ⟨(calculateCapacity_contract sampleHost "data:," emptyWorld).2.2.1 capacityOk (.bool true)
      (.obj [("capacity_bytes", .str "3738"), ("capacity_kb", .str "3.65")])
      "3738" "3.65" rfl rfl rfl rfl rfl,
   (calculateCapacity_contract sampleHost "data:," emptyWorld).2.2.2.2.1 failureResponse
      (.bool false) rfl rfl⟩

/-! ## Reporting of failures -/

/-- Counterexample to C6 as stated: a capacity query answered with
`{ success: false, error: "bad image" }` leaves the page as it was and has no
effect besides the request itself: no alert, no console message. -/
theorem capacity_failure_not_reported :
    (calculateCapacity sampleHost "data:," (.json failureResponse) emptyWorld).log =
      [.fetch (capacityRequest "data:," "1")] ∧
    alerts (calculateCapacity sampleHost "data:," (.json failureResponse) emptyWorld).log = [] ∧
    (calculateCapacity sampleHost "data:," (.json failureResponse) emptyWorld).page =
      emptyWorld.page :=
  ⟨rfl, rfl, rfl⟩

theorem handled_alerts_failure (label msg : String) (w : World) :
    alerts (removeLoading (catchAlert label
      ((.ok (), { w with log := w.log ++ [.alert msg] }) : Except JSError Unit × World))).log
      = alerts w.log ++ [msg] := by
  simp [removeLoading, catchAlert, alerts_append, alerts]

theorem handled_alerts_thrown (label : String) (e : JSError) (w : World) :
    alerts (removeLoading (catchAlert label
      ((.error e, w) : Except JSError Unit × World))).log
      = alerts w.log ++ [label ++ e.message] := by
  simp [removeLoading, catchAlert, alert, alerts_append, alerts]

theorem alerts_sendForm (url : String) (fd : List (String × FormValue)) (w : World) :
    alerts (sendForm url fd w).log = alerts w.log := by
  simp [sendForm, alerts_append, alerts]

/-- Claim C6, amended: for the encode, decode and analyze requests, every
response with a falsy `success` raises exactly one alert, `Encoding failed: `
(resp. `Decoding failed: `, `Analysis failed: `) followed by the response's
`error`, and every rejected `fetch` or `response.json()` raises exactly one
alert, `Encoding error: ` (resp. `Decoding error: `, `Analysis error: `)
followed by the error's message.  For the capacity query a rejected `fetch`
or `response.json()` raises no alert: the error is written to the console
with `console.error`. -/
theorem failures_reported (h : Host) (w : World) :
    (∀ f, w.page.encodeImageFile = some f → w.page.secretMessage ≠ "" →
      w.page.encodePassword ≠ "" →
      (∀ data v e, getProp h data "success" = .ok v → v.truthy = false →
        getProp h data "error" = .ok (.str e) →
        alerts (encodeImage h (.json data) w).log = alerts w.log ++ ["Encoding failed: " ++ e]) ∧
      (∀ e, alerts (encodeImage h (.fetchRejected e) w).log
        = alerts w.log ++ ["Encoding error: " ++ e.message]) ∧
      (∀ e, alerts (encodeImage h (.jsonRejected e) w).log
        = alerts w.log ++ ["Encoding error: " ++ e.message])) ∧
    (∀ f, w.page.decodeImageFile = some f → w.page.decodePassword ≠ "" →
      (∀ data v e, getProp h data "success" = .ok v → v.truthy = false →
        getProp h data "error" = .ok (.str e) →
        alerts (decodeImage h (.json data) w).log = alerts w.log ++ ["Decoding failed: " ++ e]) ∧
      (∀ e, alerts (decodeImage h (.fetchRejected e) w).log
        = alerts w.log ++ ["Decoding error: " ++ e.message]) ∧
      (∀ e, alerts (decodeImage h (.jsonRejected e) w).log
        = alerts w.log ++ ["Decoding error: " ++ e.message])) ∧
    (∀ f, w.page.analyzeImageFile = some f →
      (∀ data v e, getProp h data "success" = .ok v → v.truthy = false →
        getProp h data "error" = .ok (.str e) →
        alerts (analyzeImage h (.json data) w).log = alerts w.log ++ ["Analysis failed: " ++ e]) ∧
      (∀ e, alerts (analyzeImage h (.fetchRejected e) w).log
        = alerts w.log ++ ["Analysis error: " ++ e.message]) ∧
      (∀ e, alerts (analyzeImage h (.jsonRejected e) w).log
        = alerts w.log ++ ["Analysis error: " ++ e.message])) ∧
    (∀ d e, (calculateCapacity h d (.fetchRejected e) w).log = w.log ++
      [.fetch (capacityRequest d w.page.lsbBits),
       .consoleError "Capacity calculation failed:" e]) ∧
    (∀ d e, (calculateCapacity h d (.jsonRejected e) w).log = w.log ++
      [.fetch (capacityRequest d w.page.lsbBits),
       .consoleError "Capacity calculation failed:" e]) := by
  refine ⟨?_, ?_, ?_, ?_, ?_⟩
  · intro f hf hm hp
    refine ⟨?_, ?_, ?_⟩
    · intro data v e hs ht he
      rw [encodeImage_valid h _ w f hf hm hp,
        encodeResume_failure h data v _ e _ hs ht he (toStr_str h e),
        handled_alerts_failure, alerts_sendForm]
    · intro e
      rw [encodeImage_valid h _ w f hf hm hp, encodeResume_fetchRejected,
        handled_alerts_thrown, alerts_sendForm]
    · intro e
      rw [encodeImage_valid h _ w f hf hm hp, encodeResume_jsonRejected,
        handled_alerts_thrown, alerts_sendForm]
  · intro f hf hp
    refine ⟨?_, ?_, ?_⟩
    · intro data v e hs ht he
      rw [decodeImage_valid h _ w f hf hp,
        decodeResume_failure h data v _ e _ hs ht he (toStr_str h e),
        handled_alerts_failure, alerts_sendForm]
    · intro e
      rw [decodeImage_valid h _ w f hf hp, decodeResume_fetchRejected,
        handled_alerts_thrown, alerts_sendForm]
    · intro e
      rw [decodeImage_valid h _ w f hf hp, decodeResume_jsonRejected,
        handled_alerts_thrown, alerts_sendForm]
  · intro f hf
    refine ⟨?_, ?_, ?_⟩
    · intro data v e hs ht he
      rw [analyzeImage_valid h _ w f hf,
        analyzeResume_failure h data v _ e _ hs ht he (toStr_str h e),
        handled_alerts_failure, alerts_sendForm]
    · intro e
      rw [analyzeImage_valid h _ w f hf, analyzeResume_fetchRejected,
        handled_alerts_thrown, alerts_sendForm]
    · intro e
      rw [analyzeImage_valid h _ w f hf, analyzeResume_jsonRejected,
        handled_alerts_thrown, alerts_sendForm]
  · intro d e
    unfold calculateCapacity
    simp only [capacityResume_fetchRejected]
    simp
  · intro d e
    unfold calculateCapacity
    simp only [capacityResume_jsonRejected]
    simp

/-- Witness for C6, amended: the filled-in encode tab reports a failure
response and a rejected request, each with one alert. -/
theorem failures_reported_witness :
    alerts (encodeImage sampleHost (.json failureResponse) encodeReady).log
      = ["Encoding failed: bad image"] ∧
    alerts (encodeImage sampleHost (.fetchRejected ⟨"Failed to fetch"⟩) encodeReady).log
      = ["Encoding error: Failed to fetch"] :=
  ⟨((failures_reported sampleHost encodeReady).1 pngFile rfl (by decide) (by decide)).1
      failureResponse (.bool false) "bad image" rfl rfl rfl,
   ((failures_reported sampleHost encodeReady).1 pngFile rfl (by decide) (by decide)).2.1
      ⟨"Failed to fetch"⟩⟩

/-! ## The bit depth sent -/

theorem lsbBitsSent_capacityRequest (d lsb : String) :
    lsbBitsSent (capacityRequest d lsb) = some lsb := rfl

/-- Counterexample to C7 as stated: with the `lsbBits` control holding `9`,
`encodeImage` sends `lsb_bits = 9`, which is not one of 1 to 8. -/
theorem lsb_bits_out_of_range_sent :
    (requests (encodeImage sampleHost (.json failureResponse) encodeNineBits).log).map
      lsbBitsSent = [some "9"] ∧
    "9" ∉ bitDepthNumerals :=
  ⟨rfl, by decide⟩

/-- Claim C7, amended: the `lsb_bits` value placed in a request is the current
value of the corresponding control, unchanged (`lsbBits` for
`calculateCapacity` and `encodeImage`, `decodeLsbBits` for `decodeImage`); the
script applies no range check of its own, so the value sent is one of 1 to 8
exactly when the control holds such a value. -/
theorem lsb_bits_forwarded (h : Host) (net : NetOutcome) (w : World) :
    (∀ d, (requests (calculateCapacity h d net w).log).map lsbBitsSent
      = (requests w.log).map lsbBitsSent ++ [some w.page.lsbBits]) ∧
    (∀ f, w.page.encodeImageFile = some f → w.page.secretMessage ≠ "" →
      w.page.encodePassword ≠ "" →
      (requests (encodeImage h net w).log).map lsbBitsSent
        = (requests w.log).map lsbBitsSent ++ [some w.page.lsbBits]) ∧
    (∀ f, w.page.decodeImageFile = some f → w.page.decodePassword ≠ "" →
      (requests (decodeImage h net w).log).map lsbBitsSent
        = (requests w.log).map lsbBitsSent ++ [some w.page.decodeLsbBits]) := by
  refine ⟨?_, ?_, ?_⟩
  · intro d
    rw [calculateCapacity_requests]
    simp [lsbBitsSent_capacityRequest]
  · intro f hf hm hp
    rw [encodeImage_valid h net w f hf hm hp]
    have hfr := (handled_frame "Encoding error: " (encodeResume h net)
      (encodeResume_quiet h net) (sendForm "/api/encode" (encodeFormData f w.page) w)).2
    simp only [removeLoading]
    rw [hfr]
    simp [sendForm, requests_append, requests, encodeFormData, lsbBitsSent, List.lookup]
  · intro f hf hp
    rw [decodeImage_valid h net w f hf hp]
    have hfr := (handled_frame "Decoding error: " (decodeResume h net)
      (decodeResume_quiet h net) (sendForm "/api/decode" (decodeFormData f w.page) w)).2
    simp only [removeLoading]
    rw [hfr]
    simp [sendForm, requests_append, requests, decodeFormData, lsbBitsSent, List.lookup]

/-- Witness for C7, amended: the filled-in encode and decode tabs send the
values of their controls. -/
theorem lsb_bits_forwarded_witness :
    (requests (encodeImage sampleHost (.json failureResponse) encodeReady).log).map lsbBitsSent
      = [some "2"] ∧
    (requests (decodeImage sampleHost (.json failureResponse) decodeReady).log).map lsbBitsSent
      = [some "2"] :=
  ⟨(lsb_bits_forwarded sampleHost (.json failureResponse) encodeReady).2.1 pngFile rfl
      (by decide) (by decide),
   (lsb_bits_forwarded sampleHost (.json failureResponse) decodeReady).2.2 pngFile rfl
      (by decide)⟩

/-! ## File selection -/

theorem Preview.getHTML_setHTML (v : Preview) (html : String) (p : Page) :
    v.getHTML (v.setHTML html p) = html := by
  cases v <;> rfl

theorem handleFileSelect_loaded (h : Host) (input : FileInput) (preview : Preview)
    (r : String) (net : NetOutcome) (w : World) (f : File)
    (hf : input.file0 = some f) (hi : f.isImage = true) :
    handleFileSelect h input preview (.loaded r) net w = onload h input preview r net w := by
  simp [handleFileSelect, hf, hi]

theorem handleFileSelect_ignored (h : Host) (input : FileInput) (preview : Preview)
    (read : ReadOutcome) (net : NetOutcome) (w : World)
    (hno : input.file0 = none ∨ ∃ f, input.file0 = some f ∧ f.isImage = false) :
    handleFileSelect h input preview read net w = w := by
  rcases hno with hn | ⟨f, hf, hi⟩
  · simp [handleFileSelect, hn]
  · simp [handleFileSelect, hf, hi]

theorem handleFileSelect_failed (h : Host) (input : FileInput) (preview : Preview)
    (net : NetOutcome) (w : World) :
    handleFileSelect h input preview .failed net w = w := by
  unfold handleFileSelect
  cases input.file0 with
  | none => rfl
  | some f => cases hi : f.isImage <;> simp [hi]

theorem onload_requests (h : Host) (input : FileInput) (preview : Preview)
    (r : String) (net : NetOutcome) (w : World) :
    requests (onload h input preview r net w).log = requests w.log ++
      (if input.id = "encodeImage" then [capacityRequest r w.page.lsbBits] else []) := by
  unfold onload
  by_cases hid : input.id = "encodeImage"
  · simp only [hid, if_true]
    rw [calculateCapacity_requests]
    cases preview <;> rfl
  · simp [hid]

theorem wiredInput_decode_id (p : Page) :
    (wiredInput .decodePreview p).id ≠ "encodeImage" := by
  simp [wiredInput]

theorem wiredInput_analyze_id (p : Page) :
    (wiredInput .analyzePreview p).id ≠ "encodeImage" := by
  simp [wiredInput]

theorem handleFileSelect_other_input (h : Host) (input : FileInput) (preview : Preview)
    (read : ReadOutcome) (net : NetOutcome) (w : World) (hid : input.id ≠ "encodeImage") :
    requests (handleFileSelect h input preview read net w).log = requests w.log := by
  cases read with
  | failed => rw [handleFileSelect_failed]
  | loaded r =>
    cases hf : input.file0 with
    | none => rw [handleFileSelect_ignored h input preview _ net w (Or.inl hf)]
    | some f =>
      cases hi : f.isImage with
      | false => rw [handleFileSelect_ignored h input preview _ net w (Or.inr ⟨f, hf, hi⟩)]
      | true =>
        rw [handleFileSelect_loaded h input preview r net w f hf hi, onload_requests]
        simp [hid]

/-- Claim C9: `handleFileSelect` does nothing at all for a missing file or a
file whose MIME type does not start with `image/` (the preview is unchanged
and no request is made); for an image file whose read completes it renders
the preview, and it then makes a capacity request if and only if the input's
id is `encodeImage`; an input with another id, such as the decode and analyze
inputs wired up at start-up, never causes a capacity request. -/
theorem handleFileSelect_gating (h : Host) (input : FileInput) (preview : Preview)
    (net : NetOutcome) (w : World) :
    (∀ read, (input.file0 = none ∨ ∃ f, input.file0 = some f ∧ f.isImage = false) →
      handleFileSelect h input preview read net w = w) ∧
    (∀ f r, input.file0 = some f → f.isImage = true →
      preview.getHTML (handleFileSelect h input preview (.loaded r) net w).page
        = "<img src=\"" ++ r ++ "\" alt=\"Preview\">") ∧
    (∀ r, requests (handleFileSelect h input preview (.loaded r) net w).log ≠ requests w.log ↔
      ((∃ f, input.file0 = some f ∧ f.isImage = true) ∧ input.id = "encodeImage")) ∧
    (∀ f r, input.file0 = some f → f.isImage = true → input.id = "encodeImage" →
      requests (handleFileSelect h input preview (.loaded r) net w).log
        = requests w.log ++ [capacityRequest r w.page.lsbBits]) ∧
    (∀ read, input.id ≠ "encodeImage" →
      requests (handleFileSelect h input preview read net w).log = requests w.log) ∧
    (∀ read, requests (handleFileSelect h (wiredInput .decodePreview w.page) .decodePreview
      read net w).log = requests w.log) ∧
    (∀ read, requests (handleFileSelect h (wiredInput .analyzePreview w.page) .analyzePreview
      read net w).log = requests w.log) ∧
    handleFileSelect h input preview .failed net w = w := by
  refine ⟨fun read hno => handleFileSelect_ignored h input preview read net w hno, ?_, ?_, ?_,
    fun read hid => handleFileSelect_other_input h input preview read net w hid,
    fun read => handleFileSelect_other_input h _ _ read net w (wiredInput_decode_id w.page),
    fun read => handleFileSelect_other_input h _ _ read net w (wiredInput_analyze_id w.page),
    handleFileSelect_failed h input preview net w⟩
  · intro f r hf hi
    rw [handleFileSelect_loaded h input preview r net w f hf hi]
    unfold onload
    by_cases hid : input.id = "encodeImage"
    · simp only [hid, if_true]
      rw [calculateCapacity_preview, Preview.getHTML_setHTML]
    · simp only [hid, if_false]
      rw [Preview.getHTML_setHTML]
  · intro r
    constructor
    · intro hne
      cases hf : input.file0 with
      | none =>
        exact absurd (by rw [handleFileSelect_ignored h input preview _ net w (Or.inl hf)]) hne
      | some f =>
        cases hi : f.isImage with
        | false =>
          exact absurd
            (by rw [handleFileSelect_ignored h input preview _ net w (Or.inr ⟨f, hf, hi⟩)]) hne
        | true =>
          refine ⟨⟨f, rfl, hi⟩, ?_⟩
          by_contra hid
          exact hne (handleFileSelect_other_input h input preview _ net w hid)
    · rintro ⟨⟨f, hf, hi⟩, hid⟩
      rw [handleFileSelect_loaded h input preview r net w f hf hi, onload_requests]
      simp [hid]
  · intro f r hf hi hid
    rw [handleFileSelect_loaded h input preview r net w f hf hi, onload_requests]
    simp [hid]

/-- Witness for C9: selecting a PNG in the encode input renders the preview
and queries the capacity; selecting a text file does nothing. -/
theorem handleFileSelect_gating_witness :
    Preview.getHTML .encodePreview (handleFileSelect sampleHost pngInEncode .encodePreview
      (.loaded "data:,") (.json capacityOk) emptyWorld).page
        = "<img src=\"data:,\" alt=\"Preview\">" ∧
    requests (handleFileSelect sampleHost pngInEncode .encodePreview
      (.loaded "data:,") (.json capacityOk) emptyWorld).log = [capacityRequest "data:," "1"] ∧
    handleFileSelect sampleHost txtInEncode .encodePreview
      (.loaded "data:,") (.json capacityOk) emptyWorld = emptyWorld :=
  ⟨(handleFileSelect_gating sampleHost pngInEncode .encodePreview (.json capacityOk)
      emptyWorld).2.1 pngFile "data:," rfl rfl,
   (handleFileSelect_gating sampleHost pngInEncode .encodePreview (.json capacityOk)
      emptyWorld).2.2.2.1 pngFile "data:," rfl rfl rfl,
   (handleFileSelect_gating sampleHost txtInEncode .encodePreview (.json capacityOk)
      emptyWorld).1 (.loaded "data:,") (Or.inr ⟨txtFile, rfl, rfl⟩)⟩

/-! ## The score class -/

theorem JSNumber.gt_fin_mono (s1 s2 : JSNumber) (c : ℚ) (hle : s1.le s2 = true)
    (h1 : s1.gt (.fin c) = true) : s2.gt (.fin c) = true := by
  cases s1 <;> cases s2 <;>
    simp [JSNumber.le, JSNumber.gt, JSNumber.lt] at hle h1 ⊢
  exact lt_of_lt_of_le h1 hle

theorem JSNumber.gt_fin_anti (s : JSNumber) (c d : ℚ) (hcd : c ≤ d)
    (h1 : s.gt (.fin d) = true) : s.gt (.fin c) = true := by
  cases s <;> simp [JSNumber.gt, JSNumber.lt] at h1 ⊢
  exact lt_of_le_of_lt hcd h1

theorem JSNumber.le_fin_eq (s : JSNumber) (c : ℚ) (hs : s ≠ .nan) :
    s.le (.fin c) = !(s.gt (.fin c)) := by
  cases s <;> simp [JSNumber.le, JSNumber.gt, JSNumber.lt] at hs ⊢

theorem gt_0_7_imp_gt_0_4 (s : JSNumber) (h7 : s.gt lit_0_7 = true) : s.gt lit_0_4 = true := by
  unfold lit_0_7 at h7
  unfold lit_0_4
  exact JSNumber.gt_fin_anti s _ _ (by norm_num) h7

theorem encodeImage_class (h : Host) (w : World) (f : File) (data v img sc : Value)
    (it : String) (n : JSNumber)
    (hf : w.page.encodeImageFile = some f) (hm : w.page.secretMessage ≠ "")
    (hp : w.page.encodePassword ≠ "")
    (hs : getProp h data "success" = .ok v) (ht : v.truthy = true)
    (hi : getProp h data "image" = .ok img) (hit : toStr h img = .ok it)
    (hsc : getProp h data "security_score" = .ok sc) (hn : toNumber h sc = .ok n) :
    (encodeImage h (.json data) w).page.securityScoreClass =
      if n.gt lit_0_7 = true then "security-score high"
      else if n.gt lit_0_4 = true then "security-score medium"
      else "security-score low" := by
  rw [encodeImage_valid h _ w f hf hm hp,
    encodeResume_success h data v img sc it n _ hs ht hi hit hsc hn]
  simp only [removeLoading, catchAlert]
  split
  · rfl
  · split <;> rfl

theorem class_char (s : JSNumber) :
    let cls := if s.gt lit_0_7 = true then "security-score high"
      else if s.gt lit_0_4 = true then "security-score medium"
      else "security-score low"
    (cls = "security-score high" ∨ cls = "security-score medium" ∨
      cls = "security-score low") ∧
    (s ≠ .nan →
      (cls = "security-score high" ↔ s.gt lit_0_7 = true) ∧
      (cls = "security-score medium" ↔ (lit_0_4.lt s = true ∧ s.le lit_0_7 = true)) ∧
      (cls = "security-score low" ↔ s.le lit_0_4 = true)) := by
  intro cls
  constructor
  · by_cases h7 : s.gt lit_0_7 = true
    · simp [cls, h7]
    · by_cases h4 : s.gt lit_0_4 = true <;> simp [cls, h7, h4]
  · intro hnan
    have e7 : s.le lit_0_7 = !(s.gt lit_0_7) := JSNumber.le_fin_eq s _ hnan
    have e4 : s.le lit_0_4 = !(s.gt lit_0_4) := JSNumber.le_fin_eq s _ hnan
    have e4' : lit_0_4.lt s = s.gt lit_0_4 := rfl
    rw [e7, e4, e4']
    by_cases h7 : s.gt lit_0_7 = true
    · have h4 := gt_0_7_imp_gt_0_4 s h7
      simp [cls, h7, h4]
    · by_cases h4 : s.gt lit_0_4 = true <;> simp [cls, h7, h4]

theorem class_mono (s1 s2 : JSNumber) (hle : s1.le s2 = true) :
    classRank (if s1.gt lit_0_7 = true then "security-score high"
      else if s1.gt lit_0_4 = true then "security-score medium"
      else "security-score low") ≤
    classRank (if s2.gt lit_0_7 = true then "security-score high"
      else if s2.gt lit_0_4 = true then "security-score medium"
      else "security-score low") := by
  have m7 : s1.gt lit_0_7 = true → s2.gt lit_0_7 = true :=
    JSNumber.gt_fin_mono s1 s2 _ hle
  have m4 : s1.gt lit_0_4 = true → s2.gt lit_0_4 = true :=
    JSNumber.gt_fin_mono s1 s2 _ hle
  by_cases a7 : s1.gt lit_0_7 = true
  · have b7 := m7 a7
    simp [a7, b7]
  · by_cases a4 : s1.gt lit_0_4 = true
    · have b4 := m4 a4
      by_cases b7 : s2.gt lit_0_7 = true
      · simp [a7, a4, b7, classRank]
      · simp [a7, a4, b7, b4]
    · simp [a7, a4, classRank]

/-- Claim C1: for a successful encode response (truthy `success`, an `image`
that converts to text) whose `security_score` has the numeric value `s`,
`encodeImage` gives the score element exactly one of the classes
`security-score high`, `security-score medium`, `security-score low`: high
if and only if `s > 0.7`, medium if and only if `0.4 < s <= 0.7`, low if and
only if `s <= 0.4` (the comparisons being those of JavaScript numbers, with
`s` not NaN, which no JSON number is); and of two such responses the one with
the larger score never gets the lower class. -/
theorem score_class_mapping (h : Host) (w : World) (f : File)
    (hf : w.page.encodeImageFile = some f) (hm : w.page.secretMessage ≠ "")
    (hp : w.page.encodePassword ≠ "") :
    (∀ data v img it sc s, getProp h data "success" = .ok v → v.truthy = true →
      getProp h data "image" = .ok img → toStr h img = .ok it →
      getProp h data "security_score" = .ok sc → toNumber h sc = .ok s →
      ((encodeImage h (.json data) w).page.securityScoreClass = "security-score high" ∨
       (encodeImage h (.json data) w).page.securityScoreClass = "security-score medium" ∨
       (encodeImage h (.json data) w).page.securityScoreClass = "security-score low") ∧
      (s ≠ .nan →
        ((encodeImage h (.json data) w).page.securityScoreClass = "security-score high" ↔
          s.gt lit_0_7 = true) ∧
        ((encodeImage h (.json data) w).page.securityScoreClass = "security-score medium" ↔
          (lit_0_4.lt s = true ∧ s.le lit_0_7 = true)) ∧
        ((encodeImage h (.json data) w).page.securityScoreClass = "security-score low" ↔
          s.le lit_0_4 = true))) ∧
    (∀ data1 v1 img1 it1 sc1 s1 data2 v2 img2 it2 sc2 s2,
      getProp h data1 "success" = .ok v1 → v1.truthy = true →
      getProp h data1 "image" = .ok img1 → toStr h img1 = .ok it1 →
      getProp h data1 "security_score" = .ok sc1 → toNumber h sc1 = .ok s1 →
      getProp h data2 "success" = .ok v2 → v2.truthy = true →
      getProp h data2 "image" = .ok img2 → toStr h img2 = .ok it2 →
      getProp h data2 "security_score" = .ok sc2 → toNumber h sc2 = .ok s2 →
      s1.le s2 = true →
      classRank (encodeImage h (.json data1) w).page.securityScoreClass ≤
        classRank (encodeImage h (.json data2) w).page.securityScoreClass) := by
  constructor
  · intro data v img it sc s hs ht hi hit hsc hn
    rw [encodeImage_class h w f data v img sc it s hf hm hp hs ht hi hit hsc hn]
    exact class_char s
  · intro data1 v1 img1 it1 sc1 s1 data2 v2 img2 it2 sc2 s2 hs1 ht1 hi1 hit1 hsc1 hn1
      hs2 ht2 hi2 hit2 hsc2 hn2 hle
    rw [encodeImage_class h w f data1 v1 img1 sc1 it1 s1 hf hm hp hs1 ht1 hi1 hit1 hsc1 hn1,
      encodeImage_class h w f data2 v2 img2 sc2 it2 s2 hf hm hp hs2 ht2 hi2 hit2 hsc2 hn2]
    exact class_mono s1 s2 hle

/-- Witness for C1: a score of 0.5 gets the class `security-score medium`,
and the class of a score of 0.9 is not lower. -/
theorem score_class_mapping_witness :
    (encodeImage sampleHost (.json encodeOkHalf) encodeReady).page.securityScoreClass
      = "security-score medium" ∧
    classRank (encodeImage sampleHost (.json encodeOkHalf) encodeReady).page.securityScoreClass ≤
      classRank (encodeImage sampleHost (.json encodeOkHigh) encodeReady).page.securityScoreClass :=
  ⟨(((score_class_mapping sampleHost encodeReady pngFile rfl (by decide) (by decide)).1
      encodeOkHalf (.bool true) (.str "data:,") "data:," (.num (.fin (1 / 2))) (.fin (1 / 2))
      rfl rfl rfl rfl rfl rfl).2 (by simp)).2.1.2
      ⟨by simp [lit_0_4, JSNumber.lt]; norm_num,
       by simp [lit_0_7, JSNumber.le, JSNumber.lt]; norm_num⟩,
   (score_class_mapping sampleHost encodeReady pngFile rfl (by decide) (by decide)).2
      encodeOkHalf (.bool true) (.str "data:,") "data:," (.num (.fin (1 / 2))) (.fin (1 / 2))
      encodeOkHigh (.bool true) (.str "data:,") "data:,"
      (.num (.fin (8106479329266893 / 9007199254740992)))
      (.fin (8106479329266893 / 9007199254740992))
      rfl rfl rfl rfl rfl rfl rfl rfl rfl rfl rfl rfl
      (by simp [JSNumber.le, JSNumber.lt]; norm_num)⟩

end StegSuite
